import Mathlib

/-!
Shallow embedding of `product_agent_cli/main.py` (an interactive feature-planning
CLI over a generative-model chat API) and verification of its specification.

External collaborators (the generative API, the console, the file system) are
modelled as function parameters and explicit result lists; the pure string
processing (filename sanitization, history formatting, prompt construction) is
translated directly from the source.
-/

namespace ProductAgentCli

/-! ### Python string primitives (ASCII model) -/

/-- Characters matched by Python's `str.strip()` / regex `\s` (ASCII range). -/
def isPyWhitespace (c : Char) : Bool :=
  c == ' ' || c == '\t' || c == '\n' || c == '\r' || c == '\x0b' || c == '\x0c'

/-- Python `str.strip()`: drop leading and trailing whitespace. -/
def pyStrip (s : String) : String :=
  String.mk (((s.data.dropWhile isPyWhitespace).reverse.dropWhile isPyWhitespace).reverse)

/-- Python `str.strip(c)` for a single character argument. -/
def pyStripChar (c : Char) (s : String) : String :=
  String.mk (((s.data.dropWhile (· == c)).reverse.dropWhile (· == c)).reverse)

/-- Python `str.lower()` (ASCII). -/
def pyLower (s : String) : String :=
  String.mk (s.data.map Char.toLower)

/-- Python `str.capitalize()`: first character uppercased, the rest lowercased. -/
def pyCapitalize (s : String) : String :=
  match s.data with
  | [] => ""
  | c :: cs => String.mk (c.toUpper :: cs.map Char.toLower)

/-- Characters kept by `re.sub(r'[^a-z0-9_]', '', text)` in `sanitize_filename`. -/
def isKeptChar (c : Char) : Bool :=
  c.isLower || c.isDigit || c == '_'

/-- From `main.py`: converts a feature description into a safe filename.
Lowercase and strip, replace whitespace and hyphens by underscores, drop all
other non-`[a-z0-9_]` characters, strip underscores at both ends, and fall
back to `"feature_plan"` when nothing is left. -/
def sanitize_filename (text : String) : String :=
  let text := pyStrip (pyLower text)
  let text := String.mk (text.data.map (fun c => if isPyWhitespace c || c == '-' then '_' else c))
  let text := String.mk (text.data.filter isKeptChar)
  let text := pyStripChar '_' text
  if text = "" then "feature_plan" else text

/-! ### JSON values (model of what `json.load` can return) -/

/-- Structured data as parsed by Python's `json.load` (numbers modelled as
integers; the claims under verification only involve string leaves). -/
inductive Json where
  | null
  | bool (b : Bool)
  | num (n : Int)
  | str (s : String)
  | arr (xs : List Json)
  | obj (fields : List (String × Json))

mutual

/-- Python `repr` of a JSON value (used by `str()` on containers). -/
def pyRepr : Json → String
  | Json.null => "None"
  | Json.bool true => "True"
  | Json.bool false => "False"
  | Json.num n => toString n
  | Json.str s => "\x27" ++ s ++ "\x27"
  | Json.arr xs => "[" ++ pyReprList xs ++ "]"
  | Json.obj fs => "\x7b" ++ pyReprFields fs ++ "\x7d"

/-- Comma-joined `repr` of list elements. -/
def pyReprList : List Json → String
  | [] => ""
  | [x] => pyRepr x
  | x :: y :: xs => pyRepr x ++ ", " ++ pyReprList (y :: xs)

/-- Comma-joined `repr` of dict entries. -/
def pyReprFields : List (String × Json) → String
  | [] => ""
  | [(k, v)] => "\x27" ++ k ++ "\x27: " ++ pyRepr v
  | (k, v) :: f :: fs => "\x27" ++ k ++ "\x27: " ++ pyRepr v ++ ", " ++ pyReprFields (f :: fs)

end

/-- Python `str()` applied to a JSON value (f-string interpolation). -/
def pyStr : Json → String
  | Json.str s => s
  | v => pyRepr v

/-- Python `dict.get(k)` on a parsed JSON object's field list. -/
def pyDictGet (fs : List (String × Json)) (k : String) : Option Json :=
  (fs.find? (fun p => p.1 == k)).map (fun p => p.2)

/-- Models `context_data.get(k1, {}).get(k2, dflt)` on a parsed JSON value,
interpolated into an f-string.  Returns `.error` when `context_data` or the
value found at `k1` is not a dict, mirroring Python's `AttributeError`
(caught by the surrounding `except` in `load_context`). -/
def pyGetChain (j : Json) (k1 k2 : String) (dflt : String) : Except String String :=
  match j with
  | Json.obj fs =>
    match pyDictGet fs k1 with
    | none => Except.ok dflt
    | some (Json.obj fs2) =>
      match pyDictGet fs2 k2 with
      | none => Except.ok dflt
      | some v => Except.ok (pyStr v)
    | some _ => Except.error "AttributeError"
  | _ => Except.error "AttributeError"

/-! ### String constants transcribed from `main.py` -/
/-- Literal from main.py: `SYSTEM_PROMPT_part0`. -/
def SYSTEM_PROMPT_part0 : String :=
  "\nYou are an expert \"Product Architect\" agent. Your job is to guide a user from a\nhigh-level feature idea to a complete, actionable plan. You are a \"full-stack\"\narchitect, comfortable discussing product strategy, user experience (UX), and\nengineering design (EDD) all in one fluid conversation.\n\nYour goal is to gather all the information needed to create two documents:\n1.  **The \"Feature Plan\"**: A human-readable document explaining the \"why\" and \"what\" of the feature.\n2.  **The \"Execution Spec\"**: A machine-readable JSON file with EARS-style requirements for a coding agent.\n\n**Your Conversation Flow:**\n1.  **Acknowledge Context**: If context is provided, state it. (e.g., \"Working on \x27Project X\x27 with a React stack...\").\n2.  **Start High (The \"Why\")**: Always start with the problem.\n    * \"What user problem are we solving?\"\n    * \"Why does this matter for the user?\"\n    * \"How will we measure success?\"\n3.  **Move to \"What\" (The \"CUJ / User Stories\")**:\n    * \"Walk me through the ideal user journey.\"\n    * \"What\x27s the most critical step for the user?\"\n    * \"Are there any edge cases? (e.g., error handling, empty states)\"\n4.  **Move to \"How\" (The \"Implementation\")**:\n    * \"What new UI components will we need?\"\n    * \"Does this need a new API endpoint? What should it do?\"\n    * \"How should this interact with existing systems?\"\n5.  **Signal Completion**: Once you have gathered all the necessary information for both the plan and the spec, you MUST instruct the user to end the conversation. Your final message should be something like:\n\n    \"Excellent. I have everything I need. To generate the final artifacts, please type \x27done\x27 or \x27exit\x27.\"\n\nYou MUST NOT generate the plan or the spec in the conversation. Your only job is to gather the information and then instruct the user to end the session.\n\n**Context Injection (if provided):**\nThis is a \"brownfield\" project. The user has provided context. You MUST adhere\nto these constraints.\n---\n"

/-- Literal from main.py: `SYSTEM_PROMPT_part1`. -/
def SYSTEM_PROMPT_part1 : String :=
  "\n---\n"

/-- Literal from main.py: `SYNTHESIZE_PLAN_PROMPT_part0`. -/
def SYNTHESIZE_PLAN_PROMPT_part0 : String :=
  "\nBased on our entire conversation, synthesize the human-readable \"Feature Plan\"\nin Markdown. The plan MUST include:\n1.  **Feature Name**: (e.g., \"Auth: Forgot Password Flow\")\n2.  **Problem Statement**: (The \"Why\")\n3.  **Success Metrics**: (How we know it works)\n4.  **User Stories / Journey**: (The \"What\")\n5.  **Implementation Notes**: (The \"How\", including high-level API needs or UI components)\n6.  **Edge Cases & Security**: (e.g., \"User is not found\", \"Rate limiting\")\n\nYou MUST only output the Markdown content, with no other text or formatting.\n\n**Adhere to this context (if provided):**\n---\n"

/-- Literal from main.py: `SYNTHESIZE_PLAN_PROMPT_part1`. -/
def SYNTHESIZE_PLAN_PROMPT_part1 : String :=
  "\n---\n\nHere is our conversation history:\n"

/-- Literal from main.py: `SYNTHESIZE_PLAN_PROMPT_part2`. -/
def SYNTHESIZE_PLAN_PROMPT_part2 : String :=
  "\n\nGenerate the Markdown file now.\n"

/-- Literal from main.py: `SYNTHESIZE_SPEC_PROMPT_part0`. -/
def SYNTHESIZE_SPEC_PROMPT_part0 : String :=
  "\nBased on our entire conversation, synthesize the machine-readable \"Execution Spec\"\nin **MARKDOWN**. The user expects the spec to be detailed and structured using Markdown headings and bullet points.\n\nExample of the expected output:\n\n```markdown\n# Execution Specification\n\n## Feature: Example Feature\n\n### Requirements:\n*   **REQ-001 [Type: SYSTEM]** The system shall do something.\n*   **REQ-002 [Type: USER_STORY]** When the user does something, the system shall respond.\n```\n\nHere is the structure I expect:\n\n# Execution Specification\n\n## Feature: [Feature Name]\n\n### Requirements:\n*   **[ID] [Type: USER_STORY | SYSTEM | SECURITY | ACCESSIBILITY]** [A clear, testable, EARS-style requirement. (e.g., WHEN a user clicks \x27Forgot Password\x27, THE SYSTEM SHALL navigate to the \x27Password Reset\x27 view.)]\n\n\n**Rules:**\n* Create a requirement for EVERY actionable item, user story, and system behavior we discussed.\n* IDs must be sequential (REQ-001, REQ-002, ...).\n* The `requirement` text is CRITICAL. It must be a clear instruction for a coding agent.\n\n**Adhere to this context (if provided):**\n---\n"

/-- Literal from main.py: `SYNTHESIZE_SPEC_PROMPT_part1`. -/
def SYNTHESIZE_SPEC_PROMPT_part1 : String :=
  "\n---\n\nHere is our conversation history:\n"

/-- Literal from main.py: `SYNTHESIZE_SPEC_PROMPT_part2`. -/
def SYNTHESIZE_SPEC_PROMPT_part2 : String :=
  "\n\nGenerate the Markdown file now.\n"

/-- Literal from main.py: `AGENT_INSTRUCTIONS_CONTENT`. -/
def AGENT_INSTRUCTIONS_CONTENT : String :=
  "\n# Agent Instructions: \"Code Executor Agent\"\n\nThis file describes the expected behavior of an AI Code Executor Agent.\n\nAn Executor Agent is a tool that reads the generated `*.spec.md` and `*.plan.md`\nfiles and performs the required coding tasks.\n\n## 1. Load Context\nThe agent **must** always look for and read these two files:\n1.  `project.context.json`: This defines the tech stack (e.g., React, FastAPI) and design system. All generated code must adhere to it.\n2.  `*_plan.md`: This is the human-readable \"why\" for the feature. It must be used for context on the user\x27s goals.\n\n## 2. Receive a Work Order\nThe agent is activated by being given a path to a `*.spec.md` file. This file is its \"Work Order.\"\n\n## 3. Execute the Work Order\nWhen given a spec, the agent\x27s task is to:\n1.  Load and parse the `.md` file.\n2.  Initialize a \"Build Report\" to track the status of each requirement.\n3.  Iterate through **every single requirement** in the `requirements` array.\n4.  For each requirement, generate the complete, production-ready code to implement it, following the tech stack from `project.context.json`.\n5.  The agent must clearly state which file paths the code should be saved to (e.g., `src/components/ResetPasswordView.jsx`).\n6.  After code for a requirement is generated and confirmed, mark it as `\"SUCCESS\"` in the Build Report.\n7.  If a problem is identified and the code is *not* implemented, mark it as `\"FAILED\"` and note the reason.\n\n## 4. Report Build Status\nAfter all requirements have been attempted:\n1.  The agent **must** provide a final \"Build Report\".\n2.  This report **must** clearly list:\n    * **Successfully Built Requirements:** (e.g., `[SUCCESS] REQ-001: ...`, `[SUCCESS] REQ-002: ...`)\n    * **Failed Requirements:** (e.g., `[FAILED] REQ-003: ... (Reason: API specification was incomplete.)`)\n3.  Conclude with a summary of the feature\x27s status (e.g., \"The feature is **partially built**. 2 of 3 requirements are complete.\")\n"

/-- Literal from main.py: `SEED_ACKNOWLEDGMENT`. -/
def SEED_ACKNOWLEDGMENT : String :=
  "OK, I am the \x27Product Architect\x27 agent. Let\x27s get started. What is the high-level goal or problem you\x27re trying to solve with this feature?"

/-- Literal from main.py: constant filename for the static instructions file. -/
def AGENT_INSTRUCTIONS_FILENAME : String := "AGENT_INSTRUCTIONS.md"

/-- `SYSTEM_PROMPT.format(context_json=...)`. -/
def SYSTEM_PROMPT_format (context_json : String) : String :=
  SYSTEM_PROMPT_part0 ++ context_json ++ SYSTEM_PROMPT_part1

/-- `SYNTHESIZE_PLAN_PROMPT.format(history=..., context_json=...)`. -/
def SYNTHESIZE_PLAN_PROMPT_format (context_json history : String) : String :=
  SYNTHESIZE_PLAN_PROMPT_part0 ++ context_json ++ SYNTHESIZE_PLAN_PROMPT_part1 ++
    history ++ SYNTHESIZE_PLAN_PROMPT_part2

/-- `SYNTHESIZE_SPEC_PROMPT.format(history=..., context_json=...)`. -/
def SYNTHESIZE_SPEC_PROMPT_format (context_json history : String) : String :=
  SYNTHESIZE_SPEC_PROMPT_part0 ++ context_json ++ SYNTHESIZE_SPEC_PROMPT_part1 ++
    history ++ SYNTHESIZE_SPEC_PROMPT_part2

/-! ### Console message literals from `main.py` -/

/-- Welcome banner printed on entry to `main`. -/
def WELCOME_MSG : String := "[bold cyan]Welcome to the Feature Planner CLI[/bold cyan]"

/-- First line printed when `GOOGLE_API_KEY` is absent. -/
def API_KEY_ERR_1 : String := "[bold red]Error:[/bold red] `GOOGLE_API_KEY` not found."

/-- Second line printed when `GOOGLE_API_KEY` is absent. -/
def API_KEY_ERR_2 : String := "Please create a `.env` file and add your API key."

/-- Third line printed when `GOOGLE_API_KEY` is absent. -/
def API_KEY_ERR_3 : String := "Example: `GOOGLE_API_KEY=\"your_api_key_here\"`"

/-- First line printed when no initial idea is supplied. -/
def NO_IDEA_ERR_1 : String := "[bold red]Error:[/bold red] Please provide an initial feature idea."

/-- Second line printed when no initial idea is supplied. -/
def NO_IDEA_ERR_2 : String := "Example: `plan \"Build a new settings page\"`"

/-- Message printed after a successful feature-name generation. -/
def featureNameMsg (feature_name : String) : String :=
  "[bold]Generated Feature Name:[/bold] " ++ feature_name ++ "\n"

/-- Message printed when feature-name generation raises. -/
def featureNameErrMsg (e : String) : String :=
  "[bold red]Error generating feature name:[/bold red] " ++ e

/-- "Planning feature" line printed after the name step. -/
def planningMsg (initial_idea : String) : String :=
  "[bold]Planning feature:[/bold] " ++ initial_idea ++ "\n"

/-- Fixed context filename checked by `load_context`. -/
def CONTEXT_FILE : String := "project.context.json"

/-- Summary message built by `load_context` on success. -/
def contextMsgOf (product_name stack : String) : String :=
  "Context loaded from ./" ++ CONTEXT_FILE ++ ". I see we\x27re working on \x27" ++
    product_name ++ "\x27 with a " ++ stack ++ " stack."

/-- Error line printed by `load_context` when the file cannot be read or used. -/
def contextReadErrMsg (e : String) : String :=
  "[bold red]Error:[/bold red] Found \x27project.context.json\x27 but couldn\x27t read it: " ++ e

/-- Error line printed when the generated spec content is empty. -/
def SPEC_EMPTY_ERR : String :=
  "\n[bold red]Error:[/bold red] The model did not generate any content for the spec file."

/-- "Generating artifacts" banner. -/
def GENERATING_MSG : String := "\n[bold]Generating artifacts...[/bold]"

/-- Per-file creation acknowledgment. -/
def createdMsg (f : String) : String := "✅ Created: ./" ++ f

/-- Acknowledgment when the instructions file already exists and is skipped. -/
def skippedMsg : String :=
  "ℹ️ Found:   ./" ++ AGENT_INSTRUCTIONS_FILENAME ++ " (already exists, skipping)"

/-- Creation acknowledgment for the instructions file. -/
def createdInstructionsMsg : String :=
  "✅ Created: ./" ++ AGENT_INSTRUCTIONS_FILENAME ++ " (Executor instructions)"

/-- Final success line. -/
def ALL_DONE_MSG_1 : String := "\n[bold green]All files generated successfully![/bold green]"

/-- Final success line (second). -/
def ALL_DONE_MSG_2 : String := "Your artifacts are ready for an execution agent."

/-! ### Context Loader -/

/-- Observable state of `project.context.json` at load time.  `unreadable`
covers every exception path of the `try` block (open failure, JSON parse
failure, or an `AttributeError` raised by the `.get` chains), carrying the
exception text. -/
inductive ContextFile where
  | absent
  | unreadable (e : String)
  | parsed (j : Json)

/-- Result of `load_context`: the returned pair plus whatever was printed. -/
structure LoadContextResult where
  context_json : String
  context_msg : String
  printed : List String
deriving Repr, DecidableEq

/-- From `main.py`: loads context from `project.context.json` if it exists.
`dumps` stands for the library function `json.dumps(·, indent=2)`. -/
def load_context (dumps : Json → String) : ContextFile → LoadContextResult
  | ContextFile.absent => ⟨"\x7b\x7d", "Starting a new greenfield plan.", []⟩
  | ContextFile.unreadable e => ⟨"\x7b\x7d", "", [contextReadErrMsg e]⟩
  | ContextFile.parsed j =>
    match pyGetChain j "product" "name" "this project" with
    | Except.error e => ⟨"\x7b\x7d", "", [contextReadErrMsg e]⟩
    | Except.ok product_name =>
      match pyGetChain j "engineering" "stack" "defined" with
      | Except.error e => ⟨"\x7b\x7d", "", [contextReadErrMsg e]⟩
      | Except.ok stack => ⟨dumps j, contextMsgOf product_name stack, []⟩

/-! ### Conversation turns and history formatting -/

/-- One conversation turn: a role (`"user"` or `"model"`) and its text content
(the single part's text). -/
structure Msg where
  role : String
  parts : String
deriving Repr, DecidableEq

/-- From `main.py`: converts the chat history into a simple text block. -/
def format_history_for_prompt (history : List Msg) : String :=
  String.intercalate "\n"
    (history.map (fun msg => "[" ++ pyCapitalize msg.role ++ "]: " ++ msg.parts))

/-! ### Conversation Session -/

/-- The stateful chat object: its accumulated turn history. -/
structure ChatState where
  history : List Msg
deriving Repr, DecidableEq

/-- `chat.send_message(text)`: appends the user turn and the model's reply
turn to the history.  `reply` stands for the black-box generative model
(reply text as a function of the message and the prior history). -/
def send_message (reply : String → List Msg → String) (text : String)
    (st : ChatState) : ChatState :=
  ⟨st.history ++ [⟨"user", text⟩, ⟨"model", reply text st.history⟩]⟩

/-- `model.start_chat(history=[...])`: the two seed turns. -/
def initialChat (system_prompt : String) : ChatState :=
  ⟨[⟨"user", system_prompt⟩, ⟨"model", SEED_ACKNOWLEDGMENT⟩]⟩

/-- The first real user message, wrapping the CLI-supplied idea. -/
def firstPrompt (initial_idea : String) : String :=
  "My initial idea is: \"" ++ initial_idea ++ "\". Let\x27s start from there."

/-- Session initialization (step 4 of `main`): build the system prompt, start
the chat with the two seed turns, send the first prompt, and display the
response.  Returns the chat state and the displayed line. -/
def startSession (reply : String → List Msg → String)
    (context_json initial_idea : String) : ChatState × String :=
  let system_prompt := SYSTEM_PROMPT_format context_json
  let chat := initialChat system_prompt
  let st1 := send_message reply (firstPrompt initial_idea) chat
  (st1, "**Agent:** " ++ reply (firstPrompt initial_idea) chat.history)

/-! ### Interactive input loop -/

/-- One observable input event in the interactive loop: a line typed by the
user, a `KeyboardInterrupt`, or an `EOFError`. -/
inductive InputEvent where
  | line (s : String)
  | interrupt
  | endOfInput
deriving Repr, DecidableEq

/-- The literal keyword list from `main.py` step 5. -/
def TERMINATION_KEYWORDS : List String := ["done", "save", "finish", "exit", "quit", "q"]

/-- The interactive chat loop (step 5 of `main`): strip the input; a
termination keyword (case-insensitive) breaks out; empty input is skipped;
anything else is sent as a turn.  An interrupt or end-of-input is caught and
ends the loop with the state as accumulated.  `none` means the event list
ran out without a terminating event (not a completed session). -/
def chatLoop (reply : String → List Msg → String) :
    List InputEvent → ChatState → Option ChatState
  | [], _ => none
  | InputEvent.line s :: rest, st =>
    let user_input := pyStrip s
    if pyLower user_input ∈ TERMINATION_KEYWORDS then
      some st
    else if user_input = "" then
      chatLoop reply rest st
    else
      chatLoop reply rest (send_message reply user_input st)
  | InputEvent.interrupt :: _, st => some st
  | InputEvent.endOfInput :: _, st => some st

/-! ### Main prologue (steps 1-2 of `main`) -/

/-- Observable actions of the process prologue: console prints, generative
API calls, and process exit. -/
inductive Action where
  | print (s : String)
  | apiCall
  | exitProcess (code : Nat)
deriving Repr, DecidableEq

/-- The naming prompt of `generate_feature_name`, left part. -/
def NAME_PROMPT_part0 : String :=
  "You are a naming expert. Given the following feature description, suggest a short, 2-3 word feature name that can be used as a filename.\n\nFeature Description: \""

/-- The naming prompt of `generate_feature_name`, right part. -/
def NAME_PROMPT_part1 : String := "\"\n\nSuggested Name:"

/-- From `main.py`: generates a short feature name from the initial idea.
`gen` stands for `model.generate_content` returning `response.text`, or an
exception. -/
def generate_feature_name (gen : String → Except String String)
    (initial_idea : String) : Except String String :=
  (gen (NAME_PROMPT_part0 ++ initial_idea ++ NAME_PROMPT_part1)).map pyStrip

/-- `" ".join(sys.argv[1:]).strip()`. -/
def joined_idea (argv : List String) : String :=
  pyStrip (String.intercalate " " argv)

/-- Steps 1-2 of `main`: welcome banner, credential check, idea check, and the
feature-name generation attempt.  Returns the action trace and, when the
prologue did not exit, the resulting feature name. -/
def mainStart (api_key : Option String) (argv : List String)
    (gen : String → Except String String) : List Action × Option String :=
  match api_key with
  | none =>
    ([Action.print WELCOME_MSG, Action.print API_KEY_ERR_1, Action.print API_KEY_ERR_2,
      Action.print API_KEY_ERR_3, Action.exitProcess 1], none)
  | some _ =>
    let initial_idea := joined_idea argv
    if initial_idea = "" then
      ([Action.print WELCOME_MSG, Action.print NO_IDEA_ERR_1, Action.print NO_IDEA_ERR_2,
        Action.exitProcess 1], none)
    else
      match generate_feature_name gen initial_idea with
      | Except.ok feature_name =>
        ([Action.print WELCOME_MSG, Action.apiCall, Action.print (featureNameMsg feature_name),
          Action.print (planningMsg initial_idea)], some feature_name)
      | Except.error e =>
        ([Action.print WELCOME_MSG, Action.apiCall, Action.print (featureNameErrMsg e),
          Action.print (planningMsg initial_idea)], some initial_idea)

/-! ### Synthesis Stage and Artifact Writer (step 6 of `main`) -/

/-- The history filter of step 6: skip every turn whose content equals the
system prompt. -/
def simpleHistory (system_prompt : String) (chatHistory : List Msg) : List Msg :=
  chatHistory.filter (fun msg => !(msg.parts == system_prompt))

/-- The plan-synthesis prompt as built in step 6. -/
def planPromptOf (system_prompt context_json : String) (chatHistory : List Msg) : String :=
  SYNTHESIZE_PLAN_PROMPT_format context_json
    (format_history_for_prompt (simpleHistory system_prompt chatHistory))

/-- The spec-synthesis prompt as built in step 6. -/
def specPromptOf (system_prompt context_json : String) (chatHistory : List Msg) : String :=
  SYNTHESIZE_SPEC_PROMPT_format context_json
    (format_history_for_prompt (simpleHistory system_prompt chatHistory))

/-- Outcome of the synthesis stage: file writes in order (name, content),
console output, and the exit code (`some 1` for the fatal empty-spec case,
`none` for the successful fall-through). -/
structure SynthOutcome where
  writes : List (String × String)
  printed : List String
  exitCode : Option Nat
deriving Repr, DecidableEq

/-- Step 6 of `main` (non-raising path): format the filtered history, generate
the plan and write it, generate the spec, fail if it is empty after
stripping, otherwise write it, and finally write `AGENT_INSTRUCTIONS.md`
only when it does not already exist.  `generate` stands for
`model.generate_content` returning `response.text`. -/
def synthesis (system_prompt context_json feature_name : String)
    (chatHistory : List Msg) (generate : String → String)
    (instructionsFileExists : Bool) : SynthOutcome :=
  let base_filename := sanitize_filename feature_name
  let plan_text := generate (planPromptOf system_prompt context_json chatHistory)
  let plan_md_file := base_filename ++ ".plan.md"
  let spec_text := generate (specPromptOf system_prompt context_json chatHistory)
  if pyStrip spec_text = "" then
    ⟨[(plan_md_file, plan_text)],
     [GENERATING_MSG, createdMsg plan_md_file, SPEC_EMPTY_ERR],
     some 1⟩
  else
    let spec_md_file := base_filename ++ ".spec.md"
    if instructionsFileExists then
      ⟨[(plan_md_file, plan_text), (spec_md_file, spec_text)],
       [GENERATING_MSG, createdMsg plan_md_file, createdMsg spec_md_file, skippedMsg,
        ALL_DONE_MSG_1, ALL_DONE_MSG_2],
       none⟩
    else
      ⟨[(plan_md_file, plan_text), (spec_md_file, spec_text),
        (AGENT_INSTRUCTIONS_FILENAME, AGENT_INSTRUCTIONS_CONTENT)],
       [GENERATING_MSG, createdMsg plan_md_file, createdMsg spec_md_file,
        createdInstructionsMsg, ALL_DONE_MSG_1, ALL_DONE_MSG_2],
       none⟩

end ProductAgentCli
namespace ProductAgentCli

/-! ### Helper lemmas -/

/-- `String.append` is list append on the underlying character data. -/
theorem data_append (a b : String) : (a ++ b).data = a.data ++ b.data := rfl

/-- Two appends with right parts of equal length and different content differ. -/
theorem append_ne_of_ne_last (a c : String) (b d : String)
    (hlen : b.data.length = d.data.length) (hne : b ≠ d) : a ++ b ≠ c ++ d := by
  intro h
  apply hne
  have h2 : a.data ++ b.data = c.data ++ d.data := by
    simpa [data_append] using congrArg String.data h
  exact String.ext (List.append_inj' h2 hlen).2

/-- The plan filename never collides with the instructions filename. -/
theorem plan_name_ne_instructions (fn : String) :
    sanitize_filename fn ++ ".plan.md" ≠ AGENT_INSTRUCTIONS_FILENAME := by
  have h : AGENT_INSTRUCTIONS_FILENAME = "AGENT_INSTRUC" ++ "TIONS.md" := by decide
  rw [h]
  exact append_ne_of_ne_last _ _ _ _ (by decide) (by decide)

/-- The spec filename never collides with the instructions filename. -/
theorem spec_name_ne_instructions (fn : String) :
    sanitize_filename fn ++ ".spec.md" ≠ AGENT_INSTRUCTIONS_FILENAME := by
  have h : AGENT_INSTRUCTIONS_FILENAME = "AGENT_INSTRUC" ++ "TIONS.md" := by decide
  rw [h]
  exact append_ne_of_ne_last _ _ _ _ (by decide) (by decide)

/-! ### Claim theorems -/

/-- C1: for any accumulated chat history containing exactly one turn whose
content equals the constructed system prompt text, the Synthesis Stage's
history transformation drops that one turn — by content equality, regardless
of its role or of the roles around it — and renders the remaining turns, in
order, as a newline-joined sequence of `[Role]: content` lines with the role
name capitalized. -/
theorem c1_history_filter_render (system_prompt : String) (pre post : List Msg) (m : Msg)
    (hm : m.parts = system_prompt)
    (hpre : ∀ x ∈ pre, x.parts ≠ system_prompt)
    (hpost : ∀ x ∈ post, x.parts ≠ system_prompt) :
    simpleHistory system_prompt (pre ++ m :: post) = pre ++ post ∧
    format_history_for_prompt (simpleHistory system_prompt (pre ++ m :: post)) =
      String.intercalate "\n"
        ((pre ++ post).map (fun msg => "[" ++ pyCapitalize msg.role ++ "]: " ++ msg.parts)) := by
  have h1 : simpleHistory system_prompt (pre ++ m :: post) = pre ++ post := by
    unfold simpleHistory
    rw [List.filter_append, List.filter_cons]
    have hcond : (!(m.parts == system_prompt)) = false := by simp [hm]
    rw [hcond]
    simp only [Bool.false_eq_true, if_false]
    rw [List.filter_eq_self.mpr, List.filter_eq_self.mpr]
    · intro a ha
      simpa using hpost a ha
    · intro a ha
      simpa using hpre a ha
  exact ⟨h1, by rw [h1]; rfl⟩

/-- Witness for C1 at a concrete four-turn history: the user-role seed turn
carrying the system prompt is dropped; the model-role acknowledgment and the
real turns are all retained and rendered. -/
theorem c1_history_filter_render_witness :
    simpleHistory "SP" [⟨"user", "SP"⟩, ⟨"model", "ack"⟩, ⟨"user", "hi"⟩, ⟨"model", "yo"⟩] =
      [⟨"model", "ack"⟩, ⟨"user", "hi"⟩, ⟨"model", "yo"⟩] ∧
    format_history_for_prompt
        (simpleHistory "SP" [⟨"user", "SP"⟩, ⟨"model", "ack"⟩, ⟨"user", "hi"⟩, ⟨"model", "yo"⟩]) =
      String.intercalate "\n"
        (([⟨"model", "ack"⟩, ⟨"user", "hi"⟩, ⟨"model", "yo"⟩] : List Msg).map
          (fun msg => "[" ++ pyCapitalize msg.role ++ "]: " ++ msg.parts)) :=
  c1_history_filter_render "SP" [] [⟨"model", "ack"⟩, ⟨"user", "hi"⟩, ⟨"model", "yo"⟩]
    ⟨"user", "SP"⟩ rfl (by decide) (by decide)

/-- C2: if the spec-generation call returns text that is empty or
whitespace-only, the synthesis stage reports the error and exits with status
1 and the only file written is the plan (no `<base>.spec.md` write occurs);
and whenever the stripped spec text is non-empty no exit occurs at all, so
the empty check is the only validation of generated output content. -/
theorem c2_empty_spec_validation (system_prompt context_json feature_name : String)
    (chatHistory : List Msg) (generate : String → String) (instructionsFileExists : Bool) :
    (pyStrip (generate (specPromptOf system_prompt context_json chatHistory)) = "" →
      (synthesis system_prompt context_json feature_name chatHistory generate
          instructionsFileExists).exitCode = some 1 ∧
      (synthesis system_prompt context_json feature_name chatHistory generate
          instructionsFileExists).writes =
        [(sanitize_filename feature_name ++ ".plan.md",
          generate (planPromptOf system_prompt context_json chatHistory))] ∧
      SPEC_EMPTY_ERR ∈ (synthesis system_prompt context_json feature_name chatHistory generate
          instructionsFileExists).printed) ∧
    (pyStrip (generate (specPromptOf system_prompt context_json chatHistory)) ≠ "" →
      (synthesis system_prompt context_json feature_name chatHistory generate
          instructionsFileExists).exitCode = none) := by
  constructor
  · intro h
    simp [synthesis, h]
  · intro h
    cases instructionsFileExists <;> simp [synthesis, h]

/-- Witness for C2: a whitespace-only spec response yields exit code 1 with
only the plan write, and a non-empty spec response yields no exit. -/
theorem c2_empty_spec_validation_witness :
    ((synthesis "SP" "CJ" "My Feature" [] (fun _ => "   ") false).exitCode = some 1 ∧
     (synthesis "SP" "CJ" "My Feature" [] (fun _ => "   ") false).writes =
       [(sanitize_filename "My Feature" ++ ".plan.md", "   ")] ∧
     SPEC_EMPTY_ERR ∈ (synthesis "SP" "CJ" "My Feature" [] (fun _ => "   ") false).printed) ∧
    (synthesis "SP" "CJ" "My Feature" [] (fun _ => "# Spec") true).exitCode = none :=
  ⟨(c2_empty_spec_validation "SP" "CJ" "My Feature" [] (fun _ => "   ") false).1 (by decide),
   (c2_empty_spec_validation "SP" "CJ" "My Feature" [] (fun _ => "# Spec") true).2 (by decide)⟩

/-- C3: on the non-fatal path the Artifact Writer writes `<base>.plan.md` and
`<base>.spec.md` unconditionally (base obtained by sanitizing the feature
name), then appends a write of the static instructions content to
`AGENT_INSTRUCTIONS.md` exactly when that file does not already exist; when
it exists no write ever targets that filename and the skip is acknowledged. -/
theorem c3_artifact_writer (system_prompt context_json feature_name : String)
    (chatHistory : List Msg) (generate : String → String) (instructionsFileExists : Bool)
    (hspec : pyStrip (generate (specPromptOf system_prompt context_json chatHistory)) ≠ "") :
    (synthesis system_prompt context_json feature_name chatHistory generate
        instructionsFileExists).writes =
      [(sanitize_filename feature_name ++ ".plan.md",
        generate (planPromptOf system_prompt context_json chatHistory)),
       (sanitize_filename feature_name ++ ".spec.md",
        generate (specPromptOf system_prompt context_json chatHistory))] ++
      (if instructionsFileExists then []
       else [(AGENT_INSTRUCTIONS_FILENAME, AGENT_INSTRUCTIONS_CONTENT)]) ∧
    (instructionsFileExists = true →
      (∀ c, (AGENT_INSTRUCTIONS_FILENAME, c) ∉
        (synthesis system_prompt context_json feature_name chatHistory generate
          instructionsFileExists).writes) ∧
      skippedMsg ∈ (synthesis system_prompt context_json feature_name chatHistory generate
          instructionsFileExists).printed) := by
  constructor
  · cases instructionsFileExists <;> simp [synthesis, hspec]
  · intro hex
    subst hex
    constructor
    · intro c hc
      simp [synthesis, hspec] at hc
      rcases hc with ⟨h1, _⟩ | ⟨h2, _⟩
      · exact plan_name_ne_instructions feature_name h1.symm
      · exact spec_name_ne_instructions feature_name h2.symm
    · simp [synthesis, hspec]

/-- Witness for C3 with the instructions file already present: exactly the
plan and spec writes happen, that file is untouched, and the skip message is
printed. -/
theorem c3_artifact_writer_witness :
    (synthesis "SP" "CJ" "My Feature" [] (fun _ => "ok") true).writes =
      [(sanitize_filename "My Feature" ++ ".plan.md", "ok"),
       (sanitize_filename "My Feature" ++ ".spec.md", "ok")] ++
      (if true then [] else [(AGENT_INSTRUCTIONS_FILENAME, AGENT_INSTRUCTIONS_CONTENT)]) ∧
    (true = true →
      (∀ c, (AGENT_INSTRUCTIONS_FILENAME, c) ∉
        (synthesis "SP" "CJ" "My Feature" [] (fun _ => "ok") true).writes) ∧
      skippedMsg ∈ (synthesis "SP" "CJ" "My Feature" [] (fun _ => "ok") true).printed) :=
  c3_artifact_writer "SP" "CJ" "My Feature" [] (fun _ => "ok") true (by decide)

/-- C4: in the input loop, a line whose trimmed, case-insensitive form is a
termination keyword ends the loop with the chat state unchanged (the text is
not sent as a turn); a line that is empty after trimming is skipped with no
turn sent; and an interrupt or end-of-input event ends the loop gracefully
with the accumulated state, exactly like a termination keyword. -/
theorem c4_input_loop (reply : String → List Msg → String) (st : ChatState)
    (s : String) (rest : List InputEvent) :
    (pyLower (pyStrip s) ∈ TERMINATION_KEYWORDS →
      chatLoop reply (InputEvent.line s :: rest) st = some st) ∧
    (pyStrip s = "" →
      chatLoop reply (InputEvent.line s :: rest) st = chatLoop reply rest st) ∧
    chatLoop reply (InputEvent.interrupt :: rest) st = some st ∧
    chatLoop reply (InputEvent.endOfInput :: rest) st = some st := by
  refine ⟨?_, ?_, rfl, rfl⟩
  · intro h
    simp [chatLoop, h]
  · intro h
    have hnk : pyLower "" ∉ TERMINATION_KEYWORDS := by decide
    simp [chatLoop, h, hnk]

/-- Witness for C4: `" EXIT "` terminates without sending a turn, a blank
line is skipped, and interrupt and end-of-input both end the loop with the
state as accumulated. -/
theorem c4_input_loop_witness :
    chatLoop (fun _ _ => "r") [InputEvent.line " EXIT "] ⟨[]⟩ = some ⟨[]⟩ ∧
    chatLoop (fun _ _ => "r") [InputEvent.line "   ", InputEvent.line "q"] ⟨[]⟩ =
      chatLoop (fun _ _ => "r") [InputEvent.line "q"] ⟨[]⟩ ∧
    chatLoop (fun _ _ => "r") [InputEvent.interrupt] ⟨[]⟩ = some ⟨[]⟩ ∧
    chatLoop (fun _ _ => "r") [InputEvent.endOfInput] ⟨[]⟩ = some ⟨[]⟩ := by
  obtain ⟨h1, -, h3, h4⟩ := c4_input_loop (fun _ _ => "r") ⟨[]⟩ " EXIT " []
  obtain ⟨-, h2, -, -⟩ := c4_input_loop (fun _ _ => "r") ⟨[]⟩ "   " [InputEvent.line "q"]
  exact ⟨h1 (by decide), h2 (by decide), h3, h4⟩

/-- C5: initialization primes the chat with exactly two turns — the
context-interpolated system prompt as a user-role turn and the fixed
acknowledgment as a model-role turn — then sends the caller-supplied initial
idea (wrapped in the fixed first prompt, which contains it) as the first
real user turn, and the model's response to it is displayed. -/
theorem c5_session_init (reply : String → List Msg → String)
    (context_json initial_idea : String) :
    (initialChat (SYSTEM_PROMPT_format context_json)).history =
      [⟨"user", SYSTEM_PROMPT_format context_json⟩, ⟨"model", SEED_ACKNOWLEDGMENT⟩] ∧
    (startSession reply context_json initial_idea).1.history =
      [⟨"user", SYSTEM_PROMPT_format context_json⟩, ⟨"model", SEED_ACKNOWLEDGMENT⟩,
       ⟨"user", firstPrompt initial_idea⟩,
       ⟨"model", reply (firstPrompt initial_idea)
          (initialChat (SYSTEM_PROMPT_format context_json)).history⟩] ∧
    List.IsInfix initial_idea.data (firstPrompt initial_idea).data ∧
    (startSession reply context_json initial_idea).2 =
      "**Agent:** " ++ reply (firstPrompt initial_idea)
        (initialChat (SYSTEM_PROMPT_format context_json)).history := by
  refine ⟨rfl, rfl, ?_, rfl⟩
  refine ⟨"My initial idea is: \"".data, "\". Let\x27s start from there.".data, ?_⟩
  simp [firstPrompt, data_append, List.append_assoc]

/-- C6: the Context Loader returns a summary containing both the product name
and the stack (defaults included) when the file parses to an object giving
them; the empty payload and the fixed greenfield message when the file is
absent; and the empty payload with no summary, after reporting the error,
when the file cannot be read (no abort: a value is returned in all cases). -/
theorem c6_load_context (dumps : Json → String) (e : String) (j : Json) (X Y : String)
    (hX : pyGetChain j "product" "name" "this project" = Except.ok X)
    (hY : pyGetChain j "engineering" "stack" "defined" = Except.ok Y) :
    load_context dumps ContextFile.absent =
      ⟨"\x7b\x7d", "Starting a new greenfield plan.", []⟩ ∧
    load_context dumps (ContextFile.unreadable e) =
      ⟨"\x7b\x7d", "", [contextReadErrMsg e]⟩ ∧
    (load_context dumps (ContextFile.parsed j)).context_msg = contextMsgOf X Y ∧
    List.IsInfix X.data (contextMsgOf X Y).data ∧
    List.IsInfix Y.data (contextMsgOf X Y).data := by
  refine ⟨rfl, rfl, ?_, ?_, ?_⟩
  · simp [load_context, hX, hY]
  · refine ⟨("Context loaded from ./" ++ CONTEXT_FILE ++ ". I see we\x27re working on \x27").data,
      ("\x27 with a " ++ Y ++ " stack.").data, ?_⟩
    simp [contextMsgOf, data_append, List.append_assoc]
  · refine ⟨("Context loaded from ./" ++ CONTEXT_FILE ++ ". I see we\x27re working on \x27" ++
      X ++ "\x27 with a ").data, " stack.".data, ?_⟩
    simp [contextMsgOf, data_append, List.append_assoc]

/-- Witness for C6 at a concrete parsed object with `product.name = "X"` and
`engineering.stack = "Y"`, plus the absent and unreadable cases. -/
theorem c6_load_context_witness :
    load_context (fun _ => "DUMP") ContextFile.absent =
      ⟨"\x7b\x7d", "Starting a new greenfield plan.", []⟩ ∧
    load_context (fun _ => "DUMP") (ContextFile.unreadable "bad json") =
      ⟨"\x7b\x7d", "", [contextReadErrMsg "bad json"]⟩ ∧
    (load_context (fun _ => "DUMP") (ContextFile.parsed (Json.obj
        [("product", Json.obj [("name", Json.str "X")]),
         ("engineering", Json.obj [("stack", Json.str "Y")])]))).context_msg =
      contextMsgOf "X" "Y" ∧
    List.IsInfix "X".data (contextMsgOf "X" "Y").data ∧
    List.IsInfix "Y".data (contextMsgOf "X" "Y").data :=
  c6_load_context (fun _ => "DUMP") "bad json"
    (Json.obj [("product", Json.obj [("name", Json.str "X")]),
               ("engineering", Json.obj [("stack", Json.str "Y")])]) "X" "Y" rfl rfl

/-- C7: `sanitize_filename` maps `"My Cool-Feature!"` to `"my_cool_feature"`
and maps the empty string to the fallback `"feature_plan"`. -/
theorem c7_sanitize_filename_examples :
    sanitize_filename "My Cool-Feature!" = "my_cool_feature" ∧
    sanitize_filename "" = "feature_plan" := by
  constructor <;> rfl

/-- C8: with the credential environment variable absent, the prologue prints
the welcome banner and the three credential-missing lines and exits with
status 1; its action trace contains no generative-API call. -/
theorem c8_missing_credential (argv : List String) (gen : String → Except String String) :
    mainStart none argv gen =
      ([Action.print WELCOME_MSG, Action.print API_KEY_ERR_1, Action.print API_KEY_ERR_2,
        Action.print API_KEY_ERR_3, Action.exitProcess 1], none) ∧
    Action.apiCall ∉ (mainStart none argv gen).1 := by
  refine ⟨rfl, ?_⟩
  simp [mainStart]

/-- C9: when the one-shot feature-name generation call raises, the prologue
does not exit: it prints the error, continues, and falls back to the raw
initial idea as the feature name. -/
theorem c9_feature_name_fallback (key : String) (argv : List String)
    (gen : String → Except String String) (e : String)
    (hidea : joined_idea argv ≠ "")
    (hgen : gen (NAME_PROMPT_part0 ++ joined_idea argv ++ NAME_PROMPT_part1) =
      Except.error e) :
    mainStart (some key) argv gen =
      ([Action.print WELCOME_MSG, Action.apiCall, Action.print (featureNameErrMsg e),
        Action.print (planningMsg (joined_idea argv))], some (joined_idea argv)) ∧
    ∀ c, Action.exitProcess c ∉ (mainStart (some key) argv gen).1 := by
  have hg : generate_feature_name gen (joined_idea argv) = Except.error e := by
    simp [generate_feature_name, hgen, Except.map]
  constructor
  · simp [mainStart, hidea, hg]
  · intro c
    simp [mainStart, hidea, hg]

/-- Witness for C9: a raising name-generation call at a concrete invocation
leaves the raw idea as the feature name and produces no exit action. -/
theorem c9_feature_name_fallback_witness :
    mainStart (some "k") ["an", "idea"] (fun _ => Except.error "boom") =
      ([Action.print WELCOME_MSG, Action.apiCall, Action.print (featureNameErrMsg "boom"),
        Action.print (planningMsg (joined_idea ["an", "idea"]))], some (joined_idea ["an", "idea"])) ∧
    ∀ c, Action.exitProcess c ∉
      (mainStart (some "k") ["an", "idea"] (fun _ => Except.error "boom")).1 :=
  c9_feature_name_fallback "k" ["an", "idea"] (fun _ => Except.error "boom") "boom"
    (by decide) rfl

/-- C10: when the synthesis stage exits with status 1 because the generated
spec content is empty after stripping, the plan file write has already
happened: `<base>.plan.md` with the generated plan text is in the write
list of the failed run. -/
theorem c10_plan_written_before_empty_spec_exit (system_prompt context_json feature_name : String)
    (chatHistory : List Msg) (generate : String → String) (instructionsFileExists : Bool)
    (hspec : pyStrip (generate (specPromptOf system_prompt context_json chatHistory)) = "") :
    (synthesis system_prompt context_json feature_name chatHistory generate
        instructionsFileExists).exitCode = some 1 ∧
    (sanitize_filename feature_name ++ ".plan.md",
      generate (planPromptOf system_prompt context_json chatHistory)) ∈
      (synthesis system_prompt context_json feature_name chatHistory generate
        instructionsFileExists).writes := by
  constructor
  · simp [synthesis, hspec]
  · simp [synthesis, hspec]

/-- Witness for C10: with a whitespace-only spec response the run exits with
status 1 and the plan write is present. -/
theorem c10_plan_written_before_empty_spec_exit_witness :
    (synthesis "S" "C" "Other Feature" [⟨"user", "S"⟩] (fun _ => " ") true).exitCode = some 1 ∧
    (sanitize_filename "Other Feature" ++ ".plan.md", " ") ∈
      (synthesis "S" "C" "Other Feature" [⟨"user", "S"⟩] (fun _ => " ") true).writes :=
  c10_plan_written_before_empty_spec_exit "S" "C" "Other Feature" [⟨"user", "S"⟩]
    (fun _ => " ") true (by decide)

end ProductAgentCli
